import Mathlib

/-!
Shallow embedding of the web-katrain browser verification harness
(src/verification/*.py).  Each Python script is a straight-line sequence of
Playwright calls, possibly wrapped in try/except/finally blocks.  We model:

* a Playwright call as an `Evt`;
* the Python exception mechanism: every page-interacting call (`goto`,
  `click`, `wait_for_selector`, `screenshot`, ...) either returns normally or
  raises an exception (`Exc`).  In the Playwright sync API there is no
  status-returning variant: a timed-out wait raises `TimeoutError`.  Which
  calls fail in a given execution is an oracle `Env.fails`, indexed by the
  number of fallible calls made so far;
* the run state `St`: the trace of attempted actions (with a success flag),
  a model filesystem (path to content stamp), and the number of
  `browser.close()` calls performed;
* `with sync_playwright() as p:` as `withPlaywright` (its context-manager
  exit runs on every path and is recorded as `Evt.playwrightStop`);
* `try/except Exception` and `try/except/finally: browser.close()` as
  `tryExceptSteps` and `tryExceptFinallyClose`, with Python semantics: the
  handler runs on an exception, an exception raised inside the handler
  propagates, and the finally block runs on all paths.

Infallible statements (`time.sleep`, `print`, acquiring the browser and page,
`browser.close`) are `PStep.sys` steps; fallible Playwright calls are
`PStep.call` steps.
-/

inductive Exc where
  | timeoutError (msg : String)
  | error (msg : String)
  deriving DecidableEq, Repr

def excMsg : Exc → String
  | Exc.timeoutError m => m
  | Exc.error m => m

/-- A bounding box as returned by `locator.bounding_box()`. -/
structure Box where
  x : Int
  y : Int
  width : Int
  height : Int
  deriving DecidableEq, Repr

inductive Evt where
  | launch
  | newContext (width height : Nat)
  | newPage
  | goto (url : String) (timeout : Option Nat)
  | click (selector : String)
  | locatorClick (selector : String)
  | mouseClick (x y : Int)
  | waitForSelector (selector : String) (state : Option String) (timeout : Option Nat)
  | selectOption (selector : String) (value : String)
  | fill (selector : String) (value : String)
  | getByTextClick (text : String)
  | screenshot (path : String)
  | boundingBox (selector : String)
  | sleep (ms : Nat)
  | printMsg (msg : String)
  | browserClose
  | playwrightStop
  deriving DecidableEq, Repr

inductive PStep where
  | call (a : Evt)
  | sys (a : Evt)
  deriving DecidableEq, Repr

/-- Model filesystem: an association list from paths to content stamps. -/
abbrev FSys := List (String × Nat)

/-- Writing a screenshot file: the OS write replaces any existing file at
that path. -/
def fsWrite (p : String) (c : Nat) (fs : FSys) : FSys :=
  (p, c) :: fs.filter (fun e => e.1 != p)

def lookupFS (p : String) (fs : FSys) : Option Nat :=
  (fs.find? (fun e => e.1 == p)).map Prod.snd

structure St where
  idx : Nat
  trace : List (Evt × Bool)
  fsys : FSys
  closes : Nat
  deriving DecidableEq, Repr

def stInit : St := { idx := 0, trace := [], fsys := [], closes := 0 }

/-- The oracle for one execution: `fails n` is the exception raised by the
n-th fallible Playwright call (`none` = the call succeeds), and `boardBox`
is the value returned by the nav scenario's `bounding_box()` call when that
call succeeds. -/
structure Env where
  fails : Nat → Option Exc
  boardBox : Option Box

/-- Effect of a successful call on the model filesystem. -/
def applyEffect (a : Evt) (stamp : Nat) (s : St) : St :=
  match a with
  | Evt.screenshot p => { s with fsys := fsWrite p stamp s.fsys }
  | _ => s

/-- Run an infallible statement. -/
def doSys (a : Evt) (s : St) : St :=
  match a with
  | Evt.browserClose => { s with trace := s.trace ++ [(a, true)], closes := s.closes + 1 }
  | _ => { s with trace := s.trace ++ [(a, true)] }

/-- Run a straight-line block of statements, stopping at the first raised
exception (which is returned). -/
def execSteps (env : Env) : List PStep → St → Option Exc × St
  | [], s => (none, s)
  | PStep.sys a :: rest, s => execSteps env rest (doSys a s)
  | PStep.call a :: rest, s =>
    match env.fails s.idx with
    | none => execSteps env rest (applyEffect a s.idx { s with idx := s.idx + 1, trace := s.trace ++ [(a, true)] })
    | some e => (some e, { s with idx := s.idx + 1, trace := s.trace ++ [(a, false)] })

/-- The `with sync_playwright() as p:` block: the context manager's exit
runs on every path, and an exception raised in the body still propagates. -/
def withPlaywright (m : St → Option Exc × St) (s : St) : Option Exc × St :=
  let r := m s
  (r.1, doSys Evt.playwrightStop r.2)

/-- `try: body except Exception as e: handler(e)` with no finally clause. -/
def tryExceptSteps (env : Env) (body : List PStep) (handler : Exc → List PStep) (s : St) : Option Exc × St :=
  match execSteps env body s with
  | (none, s1) => (none, s1)
  | (some e, s1) => execSteps env (handler e) s1

/-- `try: body except Exception as e: handler(e) finally: browser.close()`.
An exception raised inside the handler propagates, but the finally clause
runs on every path. -/
def tryExceptFinallyClose (env : Env) (body : St → Option Exc × St) (handler : Exc → List PStep) (s : St) : Option Exc × St :=
  match body s with
  | (none, s1) => (none, doSys Evt.browserClose s1)
  | (some e, s1) =>
    match execSteps env (handler e) s1 with
    | (none, s2) => (none, doSys Evt.browserClose s2)
    | (some e2, s2) => (some e2, doSys Evt.browserClose s2)

def appUrl : String := "http://localhost:5173"

/-- The `except` block of verify_mistakes_v3 / verify_mistakes_v4:
print the error, then take a diagnostic screenshot (itself unprotected). -/
def diagHandler (e : Exc) : List PStep :=
  [PStep.sys (Evt.printMsg ("Error: " ++ excMsg e)),
   PStep.call (Evt.screenshot "verification/error.png")]

/-- The `except` block of verify_nav and of verify_settings' main block:
print the error only. -/
def errPrintHandler (e : Exc) : List PStep :=
  [PStep.sys (Evt.printMsg ("Error: " ++ excMsg e))]

namespace VerifyMistakes

/-- Body of verify_mistakes.run, before the final `browser.close()`.
No try/except/finally anywhere in this script. -/
def coreSteps : List PStep :=
  [PStep.call (Evt.goto appUrl none),
   PStep.call (Evt.click "button[title=\x27Teach Mode\x27]"),
   PStep.sys (Evt.sleep 1000),
   PStep.call (Evt.mouseClick 400 400),
   PStep.sys (Evt.sleep 500),
   PStep.call (Evt.mouseClick 450 400),
   PStep.sys (Evt.sleep 500),
   PStep.call (Evt.mouseClick 400 450),
   PStep.sys (Evt.sleep 500),
   PStep.call (Evt.mouseClick 450 450),
   PStep.sys (Evt.sleep 500),
   PStep.call (Evt.click "button[title=\x27Settings\x27]"),
   PStep.sys (Evt.sleep 1000),
   PStep.call (Evt.screenshot "verification/settings_modal.png"),
   PStep.call (Evt.click "button:has-text(\x27Done\x27)"),
   PStep.call (Evt.click "button[title=\x27Previous Mistake (Shift+N)\x27]"),
   PStep.sys (Evt.sleep 1000),
   PStep.call (Evt.screenshot "verification/mistakes_ui.png")]

def start : St := doSys Evt.newPage (doSys Evt.launch stInit)

def run (env : Env) : Option Exc × St :=
  withPlaywright (execSteps env (coreSteps ++ [PStep.sys Evt.browserClose])) start

end VerifyMistakes

namespace VerifyMistakesV2

/-- Body of verify_mistakes_v2.run, before the final `browser.close()`.
No try/except/finally anywhere in this script. -/
def coreSteps : List PStep :=
  [PStep.call (Evt.goto appUrl none),
   PStep.call (Evt.waitForSelector "div.text-2xl" (some "visible") none),
   PStep.call (Evt.click "button[title=\x27Settings\x27]"),
   PStep.sys (Evt.sleep 1000),
   PStep.call (Evt.screenshot "verification/settings_modal.png"),
   PStep.call (Evt.click "button:has-text(\x27Done\x27)"),
   PStep.call (Evt.screenshot "verification/main_ui.png")]

def start : St := doSys Evt.newPage (doSys Evt.launch stInit)

def run (env : Env) : Option Exc × St :=
  withPlaywright (execSteps env (coreSteps ++ [PStep.sys Evt.browserClose])) start

end VerifyMistakesV2

namespace VerifyMistakesV3

/-- The try-block body of verify_mistakes_v3.run. -/
def bodySteps : List PStep :=
  [PStep.call (Evt.goto appUrl (some 60000)),
   PStep.call (Evt.waitForSelector "body" (some "visible") none),
   PStep.call (Evt.waitForSelector "text=Ka" (some "visible") none),
   PStep.call (Evt.click "button[title=\x27Settings\x27]"),
   PStep.sys (Evt.sleep 1000),
   PStep.call (Evt.screenshot "verification/settings_modal.png"),
   PStep.call (Evt.click "button:has-text(\x27Done\x27)"),
   PStep.call (Evt.screenshot "verification/main_ui.png")]

def start : St := doSys Evt.newPage (doSys Evt.launch stInit)

def run (env : Env) : Option Exc × St :=
  withPlaywright (tryExceptFinallyClose env (execSteps env bodySteps) diagHandler) start

/-- Result and state of the try-block body alone. -/
def bodyRes (env : Env) : Option Exc × St := execSteps env bodySteps start

end VerifyMistakesV3

namespace VerifyMistakesV4

/-- The try-block body of verify_mistakes_v4.run (the remaining
interactions are commented out in the source). -/
def bodySteps : List PStep :=
  [PStep.call (Evt.goto appUrl (some 60000)),
   PStep.call (Evt.waitForSelector "#root" (some "visible") none),
   PStep.sys (Evt.sleep 2000),
   PStep.call (Evt.screenshot "verification/early_render.png")]

def start : St :=
  doSys Evt.newPage (doSys (Evt.newContext 1280 720) (doSys Evt.launch stInit))

def run (env : Env) : Option Exc × St :=
  withPlaywright (tryExceptFinallyClose env (execSteps env bodySteps) diagHandler) start

/-- Result and state of the try-block body alone. -/
def bodyRes (env : Env) : Option Exc × St := execSteps env bodySteps start

end VerifyMistakesV4

namespace VerifyNav

def boardSel : String := ".relative.bg-\\[\\#DCB35C\\]"

/-- The three coordinate clicks guarded by `if board_box:`. -/
def clickSeq (b : Box) : List PStep :=
  [PStep.call (Evt.mouseClick (b.x + 100) (b.y + 100)),
   PStep.sys (Evt.sleep 500),
   PStep.call (Evt.mouseClick (b.x + 200) (b.y + 100)),
   PStep.sys (Evt.sleep 500),
   PStep.call (Evt.mouseClick (b.x + 100) (b.y + 200)),
   PStep.sys (Evt.sleep 500)]

/-- The try-block body of verify_nav.verify_navigation, as resolved once the
`bounding_box()` call has returned `bb`. -/
def bodySteps (bb : Option Box) : List PStep :=
  [PStep.call (Evt.goto appUrl none),
   PStep.call (Evt.waitForSelector boardSel none none),
   PStep.call (Evt.boundingBox boardSel)]
  ++ (match bb with
      | some b => clickSeq b
      | none => [])
  ++ [PStep.call (Evt.getByTextClick "Prev"),
      PStep.sys (Evt.sleep 500),
      PStep.call (Evt.screenshot "verification/verification.png"),
      PStep.sys (Evt.printMsg "Screenshot taken")]

def start : St :=
  doSys (Evt.sleep 3000) (doSys Evt.newPage (doSys Evt.launch stInit))

def verify_navigation (env : Env) : Option Exc × St :=
  withPlaywright (tryExceptFinallyClose env (execSteps env (bodySteps env.boardBox)) errPrintHandler) start

end VerifyNav

namespace VerifySettings

def capturePath : String := "/home/jules/verification/settings_verification.png"

/-- The try-block body of verify_settings.verify_settings. -/
def fnBody : List PStep :=
  [PStep.call (Evt.goto appUrl none),
   PStep.call (Evt.waitForSelector "text=Ka" none (some 10000)),
   PStep.call (Evt.locatorClick "button[title=\x22Settings\x22]"),
   PStep.call (Evt.waitForSelector "text=Board Theme" none none),
   PStep.call (Evt.selectOption "select" "dark"),
   PStep.call (Evt.fill "input[type=\x22range\x22]" "5"),
   PStep.call (Evt.click "text=Done"),
   PStep.call (Evt.mouseClick 500 300),
   PStep.sys (Evt.sleep 500),
   PStep.call (Evt.mouseClick 550 300),
   PStep.sys (Evt.sleep 500),
   PStep.call (Evt.screenshot capturePath),
   PStep.sys (Evt.printMsg "Screenshot taken")]

/-- The `except` block of verify_settings.verify_settings. -/
def fnHandler (e : Exc) : List PStep :=
  [PStep.sys (Evt.printMsg ("Error in verify_settings: " ++ excMsg e))]

/-- The function verify_settings(page): its whole body is one
try/except with a print-only handler. -/
def verify_settings (env : Env) (s : St) : Option Exc × St :=
  tryExceptSteps env fnBody fnHandler s

def start : St := doSys Evt.newPage (doSys Evt.launch stInit)

/-- The `__main__` block of verify_settings.py. -/
def mainRun (env : Env) : Option Exc × St :=
  withPlaywright (tryExceptFinallyClose env (verify_settings env) errPrintHandler) start

/-- The same `__main__` block with its except-handler removed (try/finally
only); used to state that the handler is unreachable. -/
def mainRunNoHandler (env : Env) : Option Exc × St :=
  withPlaywright (fun s =>
    match verify_settings env s with
    | (r, s1) => (r, doSys Evt.browserClose s1)) start

/-- Modelled from the spec: the step sequence section 8 claims for the
settings scenario (navigate, wait 10000 ms for an element with attribute
title="Settings", click it, wait 5000 ms for page text "Board Theme",
select "dark" on the first select, click the "Done" text control, capture
"settings_verification.png").  To be compared with `fnBody`, which is
translated from the source. -/
def specClaimedSteps : List PStep :=
  [PStep.call (Evt.goto appUrl none),
   PStep.call (Evt.waitForSelector "[title=\x22Settings\x22]" none (some 10000)),
   PStep.call (Evt.click "[title=\x22Settings\x22]"),
   PStep.call (Evt.waitForSelector "text=Board Theme" none (some 5000)),
   PStep.call (Evt.selectOption "select" "dark"),
   PStep.call (Evt.click "text=Done"),
   PStep.call (Evt.screenshot "settings_verification.png")]

end VerifySettings

def isShot : Evt → Bool
  | Evt.screenshot _ => true
  | _ => false

def isMouse : Evt → Bool
  | Evt.mouseClick _ _ => true
  | _ => false

def isFillStep : PStep → Bool
  | PStep.call (Evt.fill _ _) => true
  | _ => false

def isClose : PStep → Bool
  | PStep.sys Evt.browserClose => true
  | _ => false

def isSys : PStep → Bool
  | PStep.sys _ => true
  | _ => false

/-- Number of screenshot attempts in a trace. -/
def shotCount (t : List (Evt × Bool)) : Nat :=
  (t.filter (fun e => isShot e.1)).length

/-- Number of coordinate-click attempts in a trace. -/
def mouseCount (t : List (Evt × Bool)) : Nat :=
  (t.filter (fun e => isMouse e.1)).length

/-- The screenshot paths occurring in a step list. -/
def capturePathsOf (l : List PStep) : List String :=
  l.filterMap (fun p =>
    match p with
    | PStep.call (Evt.screenshot q) => some q
    | PStep.sys (Evt.screenshot q) => some q
    | _ => none)

def dirChars : List Char → List Char
  | [] => []
  | c :: cs => if ('/' ∈ cs) then c :: dirChars cs else []

/-- The directory part of a path (everything before the last slash). -/
def dirOf (p : String) : String := String.mk (dirChars p.data)

/-- Exit status of the Python process: 0 on a normal return, 1 when an
exception escapes the entry point. -/
def exitCode (r : Option Exc) : Nat := if r.isNone then 0 else 1

/-- Execution in which every fallible call raises. -/
def envBoom : Env := { fails := fun _ => some (Exc.error "boom"), boardBox := none }

/-- Execution in which every fallible call succeeds and the nav scenario's
bounding box resolves to None. -/
def envOK : Env := { fails := fun _ => none, boardBox := none }

/-- Execution in which only the first fallible call raises. -/
def envFail0 : Env :=
  { fails := fun i => if i = 0 then some (Exc.error "boom") else none, boardBox := none }

/-- Execution in which only the second fallible call (in every script under
consideration, a readiness wait) times out. -/
def envTO : Env :=
  { fails := fun i => if i = 1 then some (Exc.timeoutError "timeout") else none,
    boardBox := none }

/-- Execution in which the first call raises and the next call (in v3/v4,
the diagnostic screenshot inside the except block) also raises. -/
def envCap : Env :=
  { fails := fun i =>
      if i = 0 then some (Exc.error "step failed")
      else if i = 1 then some (Exc.error "capture failed")
      else none,
    boardBox := none }

theorem execSteps_append (env : Env) (l1 l2 : List PStep) (s : St) :
    execSteps env (l1 ++ l2) s =
      match execSteps env l1 s with
      | (none, s1) => execSteps env l2 s1
      | (some e, s1) => (some e, s1) := by
  induction l1 generalizing s with
  | nil => simp [execSteps]
  | cons p rest ih =>
    cases p with
    | sys a => simp [execSteps, ih]
    | call a =>
      simp only [List.cons_append, execSteps]
      cases env.fails s.idx <;> simp [ih]

theorem applyEffect_closes (a : Evt) (n : Nat) (s : St) :
    (applyEffect a n s).closes = s.closes := by
  cases a <;> rfl

theorem doSys_closes (a : Evt) (s : St) (h : a ≠ Evt.browserClose) :
    (doSys a s).closes = s.closes := by
  cases a <;> first
    | rfl
    | exact absurd rfl h

theorem doSys_close_closes (s : St) :
    (doSys Evt.browserClose s).closes = s.closes + 1 := rfl

theorem doSys_idx (a : Evt) (s : St) : (doSys a s).idx = s.idx := by
  cases a <;> rfl

theorem execSteps_closes (env : Env) (l : List PStep)
    (h : ∀ p ∈ l, isClose p = false) (s : St) :
    (execSteps env l s).2.closes = s.closes := by
  induction l generalizing s with
  | nil => simp [execSteps]
  | cons p rest ih =>
    have hp := h p (List.mem_cons_self p rest)
    have hrest : ∀ q ∈ rest, isClose q = false := fun q hq => h q (List.mem_cons_of_mem p hq)
    cases p with
    | sys a =>
      have ha : a ≠ Evt.browserClose := by
        intro hEq
        subst hEq
        simp [isClose] at hp
      simp [execSteps, ih hrest, doSys_closes a s ha]
    | call a =>
      simp only [execSteps]
      cases env.fails s.idx with
      | none => simp [ih hrest, applyEffect_closes]
      | some e => simp

theorem execSteps_allSys (env : Env) (l : List PStep)
    (h : ∀ p ∈ l, isSys p = true) (s : St) :
    (execSteps env l s).1 = none := by
  induction l generalizing s with
  | nil => simp [execSteps]
  | cons p rest ih =>
    have hp := h p (List.mem_cons_self p rest)
    have hrest : ∀ q ∈ rest, isSys q = true := fun q hq => h q (List.mem_cons_of_mem p hq)
    cases p with
    | sys a => simp [execSteps, ih hrest]
    | call a => simp [isSys] at hp

theorem withPlaywright_fst (m : St → Option Exc × St) (s : St) :
    (withPlaywright m s).1 = (m s).1 := rfl

theorem withPlaywright_closes (m : St → Option Exc × St) (s : St) :
    (withPlaywright m s).2.closes = (m s).2.closes := rfl

theorem withPlaywright_trace (m : St → Option Exc × St) (s : St) :
    (withPlaywright m s).2.trace = (m s).2.trace ++ [(Evt.playwrightStop, true)] := rfl

theorem tryExceptFinallyClose_closes (env : Env) (body : St → Option Exc × St)
    (handler : Exc → List PStep) (s : St)
    (hb : (body s).2.closes = s.closes)
    (hh : ∀ e, ∀ p ∈ handler e, isClose p = false) :
    (tryExceptFinallyClose env body handler s).2.closes = s.closes + 1 := by
  unfold tryExceptFinallyClose
  rcases hbody : body s with ⟨r, s1⟩
  have hs1 : s1.closes = s.closes := by rw [hbody] at hb; exact hb
  cases r with
  | none => simp [doSys_close_closes, hs1]
  | some e =>
    rcases hhr : execSteps env (handler e) s1 with ⟨r2, s2⟩
    have hs2 : s2.closes = s1.closes := by
      have := execSteps_closes env (handler e) (hh e) s1
      rw [hhr] at this
      exact this
    cases r2 <;> simp [hhr, doSys_close_closes, hs2, hs1]

theorem tryExceptFinallyClose_ok (env : Env) (body : St → Option Exc × St)
    (handler : Exc → List PStep) (s : St)
    (hh : ∀ e, ∀ p ∈ handler e, isSys p = true) :
    (tryExceptFinallyClose env body handler s).1 = none := by
  unfold tryExceptFinallyClose
  rcases hbody : body s with ⟨r, s1⟩
  cases r with
  | none => simp
  | some e =>
    rcases hhr : execSteps env (handler e) s1 with ⟨r2, s2⟩
    have := execSteps_allSys env (handler e) (hh e) s1
    rw [hhr] at this
    simp at this
    subst this
    simp [hhr]

theorem tryExceptFinallyClose_ok_body (env : Env) (body : St → Option Exc × St)
    (handler : Exc → List PStep) (s : St) (hb : (body s).1 = none) :
    (tryExceptFinallyClose env body handler s).1 = none := by
  unfold tryExceptFinallyClose
  rcases hbody : body s with ⟨r, s1⟩
  rw [hbody] at hb
  simp at hb
  subst hb
  simp

theorem errPrintHandler_sys (e : Exc) : ∀ p ∈ errPrintHandler e, isSys p = true := by
  intro p hp
  simp [errPrintHandler] at hp
  subst hp
  rfl

theorem errPrintHandler_closeFree (e : Exc) : ∀ p ∈ errPrintHandler e, isClose p = false := by
  intro p hp
  simp [errPrintHandler] at hp
  subst hp
  rfl

theorem diagHandler_closeFree (e : Exc) : ∀ p ∈ diagHandler e, isClose p = false := by
  intro p hp
  simp [diagHandler] at hp
  rcases hp with rfl | rfl <;> rfl

theorem vs_fnHandler_sys (e : Exc) : ∀ p ∈ VerifySettings.fnHandler e, isSys p = true := by
  intro p hp
  simp [VerifySettings.fnHandler] at hp
  subst hp
  rfl

theorem vs_fnHandler_closeFree (e : Exc) : ∀ p ∈ VerifySettings.fnHandler e, isClose p = false := by
  intro p hp
  simp [VerifySettings.fnHandler] at hp
  subst hp
  rfl

/-- verify_settings(page) catches every exception internally. -/
theorem vs_fn_ok (env : Env) (s : St) : (VerifySettings.verify_settings env s).1 = none := by
  unfold VerifySettings.verify_settings tryExceptSteps
  rcases hb : execSteps env VerifySettings.fnBody s with ⟨r, s1⟩
  cases r with
  | none => simp
  | some e => simpa using execSteps_allSys env (VerifySettings.fnHandler e) (vs_fnHandler_sys e) s1

/-- verify_settings(page) performs no browser.close() itself. -/
theorem vs_fn_closes (env : Env) (s : St) :
    (VerifySettings.verify_settings env s).2.closes = s.closes := by
  unfold VerifySettings.verify_settings tryExceptSteps
  rcases hb : execSteps env VerifySettings.fnBody s with ⟨r, s1⟩
  have hs1 : s1.closes = s.closes := by
    have := execSteps_closes env VerifySettings.fnBody (by decide) s
    rw [hb] at this
    exact this
  cases r with
  | none => simpa using hs1
  | some e =>
    have := execSteps_closes env (VerifySettings.fnHandler e) (vs_fnHandler_closeFree e) s1
    simpa [this] using hs1

theorem nav_body_closeFree (bb : Option Box) :
    ∀ p ∈ VerifyNav.bodySteps bb, isClose p = false := by
  cases bb with
  | none => decide
  | some b =>
    intro p hp
    simp [VerifyNav.bodySteps, VerifyNav.clickSeq] at hp
    rcases hp with rfl | rfl | rfl | rfl | rfl | rfl | rfl | rfl | rfl | rfl | rfl | rfl | rfl <;> rfl

/-- Shape shared by verify_mistakes_v3 and verify_mistakes_v4: when the
try-block body raises, the whole run's outcome is whatever the diagnostic
screenshot inside the except block does (its index is the body's final call
count), because nothing protects that screenshot. -/
theorem tefc_diag_propagation (env : Env) (body : St → Option Exc × St) (s : St)
    (h : (body s).1.isSome = true) :
    (withPlaywright (tryExceptFinallyClose env body diagHandler) s).1 =
      env.fails (body s).2.idx := by
  rw [withPlaywright_fst]
  unfold tryExceptFinallyClose
  rcases hbody : body s with ⟨r, s1⟩
  rw [hbody] at h
  cases r with
  | none => simp at h
  | some e =>
    simp only [diagHandler, execSteps, doSys_idx]
    cases env.fails s1.idx <;> simp [execSteps]

/-- Shape shared by verify_mistakes.run and verify_mistakes_v2.run: the
final `browser.close()` is just the last statement of the `with` block, so
it runs exactly when no earlier call raised; a raising execution performs
no close at all (only the sync_playwright context exit still runs). -/
theorem closeLast_closes (env : Env) (core : List PStep) (s : St)
    (hc : ∀ p ∈ core, isClose p = false) (hs : s.closes = 0) :
    (withPlaywright (execSteps env (core ++ [PStep.sys Evt.browserClose])) s).2.closes =
      if (withPlaywright (execSteps env (core ++ [PStep.sys Evt.browserClose])) s).1.isNone
      then 1 else 0 := by
  rw [withPlaywright_closes, withPlaywright_fst, execSteps_append]
  rcases h : execSteps env core s with ⟨r, s1⟩
  have hs1 : s1.closes = 0 := by
    have := execSteps_closes env core hc s
    rw [h] at this
    rw [this, hs]
  cases r with
  | none => simp [execSteps, doSys_close_closes, hs1]
  | some e => simp [hs1]

/-- Claim C1: the spec asserts that on every execution of every scenario the
browser handle is closed exactly once.  This fails for verify_mistakes.run
(and verify_mistakes_v2.run): they have no try/finally, so an execution in
which a step raises performs no `browser.close()` at all. -/
theorem c1_counterexample :
    ¬ (∀ env : Env, (VerifyMistakes.run env).2.closes = 1) := by
  intro h
  exact absurd (h envBoom) (by decide)

/-- Claim C1, amended: the scripts with a finally clause (verify_nav,
verify_mistakes_v3, verify_mistakes_v4, and verify_settings' main block)
close the browser exactly once on every execution; verify_mistakes.run and
verify_mistakes_v2.run close it exactly once when no step raises and zero
times otherwise (though the sync_playwright context exit still runs last on
every path). -/
theorem c1_theorem (env : Env) :
    (VerifyNav.verify_navigation env).2.closes = 1 ∧
    (VerifyMistakesV3.run env).2.closes = 1 ∧
    (VerifyMistakesV4.run env).2.closes = 1 ∧
    (VerifySettings.mainRun env).2.closes = 1 ∧
    ((VerifyMistakes.run env).2.closes =
      if (VerifyMistakes.run env).1.isNone then 1 else 0) ∧
    ((VerifyMistakesV2.run env).2.closes =
      if (VerifyMistakesV2.run env).1.isNone then 1 else 0) ∧
    (VerifyMistakes.run env).2.trace.getLast? = some (Evt.playwrightStop, true) := by
  refine ⟨?_, ?_, ?_, ?_, ?_, ?_, ?_⟩
  · unfold VerifyNav.verify_navigation
    rw [withPlaywright_closes]
    have hb := execSteps_closes env (VerifyNav.bodySteps env.boardBox)
      (nav_body_closeFree env.boardBox) VerifyNav.start
    exact tryExceptFinallyClose_closes env _ errPrintHandler VerifyNav.start hb
      (fun e => errPrintHandler_closeFree e)
  · unfold VerifyMistakesV3.run
    rw [withPlaywright_closes]
    have hb := execSteps_closes env VerifyMistakesV3.bodySteps (by decide) VerifyMistakesV3.start
    exact tryExceptFinallyClose_closes env _ diagHandler VerifyMistakesV3.start hb
      (fun e => diagHandler_closeFree e)
  · unfold VerifyMistakesV4.run
    rw [withPlaywright_closes]
    have hb := execSteps_closes env VerifyMistakesV4.bodySteps (by decide) VerifyMistakesV4.start
    exact tryExceptFinallyClose_closes env _ diagHandler VerifyMistakesV4.start hb
      (fun e => diagHandler_closeFree e)
  · unfold VerifySettings.mainRun
    rw [withPlaywright_closes]
    exact tryExceptFinallyClose_closes env _ errPrintHandler VerifySettings.start
      (vs_fn_closes env VerifySettings.start) (fun e => errPrintHandler_closeFree e)
  · exact closeLast_closes env VerifyMistakes.coreSteps VerifyMistakes.start (by decide) rfl
  · exact closeLast_closes env VerifyMistakesV2.coreSteps VerifyMistakesV2.start (by decide) rfl
  · unfold VerifyMistakes.run
    rw [withPlaywright_trace]
    simp

/-- Witness for c1_theorem at the all-succeeding execution. -/
theorem c1_witness :
    (VerifyNav.verify_navigation envOK).2.closes = 1 ∧
    (VerifyMistakesV3.run envOK).2.closes = 1 ∧
    (VerifyMistakesV4.run envOK).2.closes = 1 ∧
    (VerifySettings.mainRun envOK).2.closes = 1 ∧
    ((VerifyMistakes.run envOK).2.closes =
      if (VerifyMistakes.run envOK).1.isNone then 1 else 0) ∧
    ((VerifyMistakesV2.run envOK).2.closes =
      if (VerifyMistakesV2.run envOK).1.isNone then 1 else 0) ∧
    (VerifyMistakes.run envOK).2.trace.getLast? = some (Evt.playwrightStop, true) :=
  c1_theorem envOK

/-- Claim C2: the spec asserts every scenario process exits 0 even when the
scenario fails.  This fails for verify_mistakes.run: with no try/except, a
raising step escapes the entry point and the process exits 1. -/
theorem c2_counterexample :
    ¬ (∀ env : Env, exitCode (VerifyMistakes.run env).1 = 0) := by
  intro h
  exact absurd (h envBoom) (by decide)

/-- Claim C2, amended: only verify_nav and verify_settings' main block are
guaranteed to exit 0 on every execution; verify_mistakes.run and
verify_mistakes_v2.run exit 1 whenever a step raises, and
verify_mistakes_v3/v4 exit 1 when the diagnostic screenshot in their except
block raises too. -/
theorem c2_theorem :
    (∀ env : Env, exitCode (VerifyNav.verify_navigation env).1 = 0) ∧
    (∀ env : Env, exitCode (VerifySettings.mainRun env).1 = 0) ∧
    exitCode (VerifyMistakes.run envBoom).1 = 1 ∧
    exitCode (VerifyMistakesV2.run envBoom).1 = 1 ∧
    exitCode (VerifyMistakesV3.run envBoom).1 = 1 ∧
    exitCode (VerifyMistakesV4.run envBoom).1 = 1 := by
  refine ⟨?_, ?_, by decide, by decide, by decide, by decide⟩
  · intro env
    have : (VerifyNav.verify_navigation env).1 = none := by
      unfold VerifyNav.verify_navigation
      rw [withPlaywright_fst]
      exact tryExceptFinallyClose_ok env _ errPrintHandler VerifyNav.start
        (fun e => errPrintHandler_sys e)
    simp [exitCode, this]
  · intro env
    have : (VerifySettings.mainRun env).1 = none := by
      unfold VerifySettings.mainRun
      rw [withPlaywright_fst]
      exact tryExceptFinallyClose_ok_body env _ errPrintHandler VerifySettings.start
        (vs_fn_ok env VerifySettings.start)
    simp [exitCode, this]

/-- Claim C3: the spec asserts that whenever a step fails, the scenario
performs a final diagnostic screenshot before exiting.  This fails for
verify_settings: in the execution where the first step (goto) raises, the
failed attempt is in the trace but no screenshot is ever attempted — the
handler only prints. -/
theorem c3_counterexample :
    ((Evt.goto appUrl none, false) ∈ (VerifySettings.mainRun envFail0).2.trace) ∧
    shotCount (VerifySettings.mainRun envFail0).2.trace = 0 := by
  decide

/-- Claim C3, amended: on a step failure only verify_mistakes_v3 and
verify_mistakes_v4 perform a diagnostic capture before exiting;
verify_settings and verify_nav only print the error and capture nothing,
and verify_mistakes has no handler at all, so the failure escapes with no
diagnostic capture. -/
theorem c3_theorem :
    ((Evt.screenshot "verification/error.png", true) ∈ (VerifyMistakesV3.run envFail0).2.trace) ∧
    ((Evt.screenshot "verification/error.png", true) ∈ (VerifyMistakesV4.run envFail0).2.trace) ∧
    shotCount (VerifySettings.mainRun envFail0).2.trace = 0 ∧
    shotCount (VerifyNav.verify_navigation envFail0).2.trace = 0 ∧
    (VerifyMistakes.run envFail0).1.isSome = true ∧
    shotCount (VerifyMistakes.run envFail0).2.trace = 0 := by
  decide

/-- Claim C4: the spec asserts a readiness wait returns a success-or-timeout
outcome and never throws past the timeout boundary.  In the code a timed-out
`wait_for_selector` raises a TimeoutError; in verify_mistakes_v2 nothing
catches it, so it propagates out of the whole entry point. -/
theorem c4_counterexample :
    (VerifyMistakesV2.run envTO).1 = some (Exc.timeoutError "timeout") ∧
    ((Evt.waitForSelector "div.text-2xl" (some "visible") none, false) ∈
      (VerifyMistakesV2.run envTO).2.trace) := by
  decide

/-- Claim C4, amended: a timed-out wait raises a TimeoutError exception
rather than returning a status; scenarios wrapped in try/except
(verify_mistakes_v3, verify_settings) catch it at the scenario boundary and
convert it to a printed diagnostic, while verify_mistakes_v2 lets it escape
the process. -/
theorem c4_theorem :
    (VerifyMistakesV2.run envTO).1 = some (Exc.timeoutError "timeout") ∧
    (VerifyMistakesV3.run envTO).1 = none ∧
    ((Evt.printMsg "Error: timeout", true) ∈ (VerifyMistakesV3.run envTO).2.trace) ∧
    (VerifySettings.mainRun envTO).1 = none ∧
    ((Evt.printMsg "Error in verify_settings: timeout", true) ∈
      (VerifySettings.mainRun envTO).2.trace) := by
  decide

/-- Claim C5: the spec's claimed step sequence for the settings scenario
does not match the source: the 10000 ms wait targets the page text "Ka"
(not an element with title="Settings"), the "Board Theme" wait uses the
default timeout rather than 5000 ms, the code additionally fills the range
input with "5" and performs two coordinate clicks, and the artifact is
written to /home/jules/verification/, not to "settings_verification.png". -/
theorem c5_counterexample :
    VerifySettings.specClaimedSteps ≠ VerifySettings.fnBody ∧
    (VerifySettings.fnBody.filter isFillStep).length = 1 ∧
    (VerifySettings.specClaimedSteps.filter isFillStep).length = 0 ∧
    (PStep.call (Evt.waitForSelector "text=Board Theme" none (some 5000)) ∉
      VerifySettings.fnBody) ∧
    (PStep.call (Evt.waitForSelector "text=Ka" none (some 10000)) ∈ VerifySettings.fnBody) ∧
    capturePathsOf VerifySettings.fnBody = [VerifySettings.capturePath] := by
  decide

/-- Claim C5, amended: the settings scenario executes goto; wait up to
10000 ms for text "Ka"; click the button with title "Settings"; wait (with
the default timeout) for text "Board Theme"; select "dark" on the first
select; fill the range input with "5"; click the "Done" text; two
coordinate clicks with pauses; capture to
/home/jules/verification/settings_verification.png — and a fully successful
run writes exactly one artifact file. -/
theorem c5_theorem :
    ((VerifySettings.mainRun envOK).2.trace.map Prod.fst =
      [Evt.launch, Evt.newPage,
       Evt.goto appUrl none,
       Evt.waitForSelector "text=Ka" none (some 10000),
       Evt.locatorClick "button[title=\x22Settings\x22]",
       Evt.waitForSelector "text=Board Theme" none none,
       Evt.selectOption "select" "dark",
       Evt.fill "input[type=\x22range\x22]" "5",
       Evt.click "text=Done",
       Evt.mouseClick 500 300, Evt.sleep 500,
       Evt.mouseClick 550 300, Evt.sleep 500,
       Evt.screenshot VerifySettings.capturePath,
       Evt.printMsg "Screenshot taken",
       Evt.browserClose, Evt.playwrightStop]) ∧
    (VerifySettings.mainRun envOK).1 = none ∧
    (VerifySettings.mainRun envOK).2.fsys.length = 1 := by
  decide

/-- Claim C7: the spec asserts all screenshot artifacts go to one single
fixed output directory.  verify_settings writes to the absolute directory
/home/jules/verification while verify_nav writes to the relative directory
verification. -/
theorem c7_counterexample :
    capturePathsOf VerifySettings.fnBody = [VerifySettings.capturePath] ∧
    capturePathsOf (VerifyNav.bodySteps none) = ["verification/verification.png"] ∧
    dirOf VerifySettings.capturePath ≠ dirOf "verification/verification.png" := by
  decide

/-- Claim C7, amended: every scenario except verify_settings writes its
artifacts (with caller-specified literal filenames) into the relative
directory "verification"; verify_settings writes its single artifact into
the absolute directory "/home/jules/verification". -/
theorem c7_theorem :
    ((capturePathsOf VerifyMistakes.coreSteps ++
      capturePathsOf VerifyMistakesV2.coreSteps ++
      capturePathsOf VerifyMistakesV3.bodySteps ++
      capturePathsOf VerifyMistakesV4.bodySteps ++
      capturePathsOf (VerifyNav.bodySteps none) ++
      capturePathsOf (diagHandler (Exc.error "e"))).all
        (fun p => dirOf p == "verification") = true) ∧
    dirOf VerifySettings.capturePath = "/home/jules/verification" := by
  decide

/-- Claim C6: the spec asserts a failure of the diagnostic capture is only
logged and never propagates.  In verify_mistakes_v3, the screenshot inside
the except block is unprotected: in the execution where a body step raises
and the diagnostic screenshot then raises too, the capture's exception
escapes run() entirely. -/
theorem c6_counterexample :
    (VerifyMistakesV3.run envCap).1 = some (Exc.error "capture failed") ∧
    ((Evt.screenshot "verification/error.png", false) ∈
      (VerifyMistakesV3.run envCap).2.trace) := by
  decide

/-- Claim C6, amended: in verify_mistakes_v3 and verify_mistakes_v4,
whenever the try-block body raises, the run's overall outcome is exactly
the outcome of the diagnostic screenshot in the except block — so a failing
diagnostic capture propagates to the caller instead of being only logged
(the browser is still closed by the finally clause on the way out). -/
theorem c6_theorem (env : Env)
    (h3 : (VerifyMistakesV3.bodyRes env).1.isSome = true)
    (h4 : (VerifyMistakesV4.bodyRes env).1.isSome = true) :
    (VerifyMistakesV3.run env).1 = env.fails (VerifyMistakesV3.bodyRes env).2.idx ∧
    (VerifyMistakesV4.run env).1 = env.fails (VerifyMistakesV4.bodyRes env).2.idx := by
  constructor
  · exact tefc_diag_propagation env (execSteps env VerifyMistakesV3.bodySteps)
      VerifyMistakesV3.start h3
  · exact tefc_diag_propagation env (execSteps env VerifyMistakesV4.bodySteps)
      VerifyMistakesV4.start h4

/-- Witness for c6_theorem at the execution where the first body step and
the diagnostic capture both raise. -/
theorem c6_witness :
    ((VerifyMistakesV3.bodyRes envCap).1.isSome = true) ∧
    ((VerifyMistakesV4.bodyRes envCap).1.isSome = true) ∧
    ((VerifyMistakesV3.run envCap).1 = envCap.fails (VerifyMistakesV3.bodyRes envCap).2.idx ∧
     (VerifyMistakesV4.run envCap).1 = envCap.fails (VerifyMistakesV4.bodyRes envCap).2.idx) :=
  ⟨by decide, by decide, c6_theorem envCap (by decide) (by decide)⟩

theorem filter_after_exclude (l : FSys) (p : String) :
    (l.filter (fun e => e.1 != p)).filter (fun e => e.1 == p) = [] := by
  induction l with
  | nil => rfl
  | cons a t ih =>
    by_cases h : a.1 = p
    · simp [List.filter_cons, h, ih]
    · simp [List.filter_cons, h, ih]

/-- Claim C8: writing a capture to a path where a file already exists
overwrites it: after two captures to the same path, exactly one file exists
at that path and its content is the second capture's content. -/
theorem c8_theorem (fs : FSys) (p : String) (c1 c2 : Nat) :
    ((fsWrite p c2 (fsWrite p c1 fs)).filter (fun e => e.1 == p)).length = 1 ∧
    lookupFS p (fsWrite p c2 (fsWrite p c1 fs)) = some c2 := by
  constructor
  · have hrest := filter_after_exclude (fsWrite p c1 fs) p
    simp only [fsWrite, List.filter_cons]
    simp only [fsWrite] at hrest
    simp [hrest]
  · simp [lookupFS, fsWrite, List.find?]

/-- Witness for c8_theorem at a concrete filesystem and path. -/
theorem c8_witness :
    ((fsWrite "x.png" 2 (fsWrite "x.png" 1 [])).filter (fun e => e.1 == "x.png")).length = 1 ∧
    lookupFS "x.png" (fsWrite "x.png" 2 (fsWrite "x.png" 1 [])) = some 2 :=
  c8_theorem [] "x.png" 1 2

/-- Claim C9: in the navigation scenario, when the board's bounding box
resolves to None (and the surrounding calls succeed), all three
coordinate-based move clicks are skipped without raising, and execution
proceeds directly to clicking the "Prev" control and capturing the
screenshot. -/
theorem c9_theorem (env : Env) (hb : env.boardBox = none)
    (h0 : env.fails 0 = none) (h1 : env.fails 1 = none) (h2 : env.fails 2 = none)
    (h3 : env.fails 3 = none) (h4 : env.fails 4 = none) :
    mouseCount (VerifyNav.verify_navigation env).2.trace = 0 ∧
    (VerifyNav.verify_navigation env).2.trace.map Prod.fst =
      [Evt.launch, Evt.newPage, Evt.sleep 3000,
       Evt.goto appUrl none,
       Evt.waitForSelector VerifyNav.boardSel none none,
       Evt.boundingBox VerifyNav.boardSel,
       Evt.getByTextClick "Prev", Evt.sleep 500,
       Evt.screenshot "verification/verification.png",
       Evt.printMsg "Screenshot taken",
       Evt.browserClose, Evt.playwrightStop] ∧
    (VerifyNav.verify_navigation env).1 = none := by
  simp [VerifyNav.verify_navigation, VerifyNav.bodySteps, VerifyNav.start, hb,
    withPlaywright, tryExceptFinallyClose, execSteps, doSys, applyEffect, stInit,
    h0, h1, h2, h3, h4, mouseCount, isMouse, List.filter]

/-- Witness for c9_theorem at the all-succeeding execution with a None
bounding box. -/
theorem c9_witness :
    mouseCount (VerifyNav.verify_navigation envOK).2.trace = 0 ∧
    (VerifyNav.verify_navigation envOK).2.trace.map Prod.fst =
      [Evt.launch, Evt.newPage, Evt.sleep 3000,
       Evt.goto appUrl none,
       Evt.waitForSelector VerifyNav.boardSel none none,
       Evt.boundingBox VerifyNav.boardSel,
       Evt.getByTextClick "Prev", Evt.sleep 500,
       Evt.screenshot "verification/verification.png",
       Evt.printMsg "Screenshot taken",
       Evt.browserClose, Evt.playwrightStop] ∧
    (VerifyNav.verify_navigation envOK).1 = none :=
  c9_theorem envOK rfl rfl rfl rfl rfl rfl

/-- Claim C10: verify_settings(page) catches every exception raised inside
its scenario body and never propagates one to its caller, so the exception
handler wrapping its invocation in the __main__ block is unreachable: the
main block behaves identically with that handler removed. -/
theorem c10_theorem :
    (∀ (env : Env) (s : St), (VerifySettings.verify_settings env s).1 = none) ∧
    (∀ env : Env, VerifySettings.mainRun env = VerifySettings.mainRunNoHandler env) := by
  refine ⟨fun env s => vs_fn_ok env s, ?_⟩
  intro env
  unfold VerifySettings.mainRun VerifySettings.mainRunNoHandler
  unfold withPlaywright tryExceptFinallyClose
  rcases h : VerifySettings.verify_settings env VerifySettings.start with ⟨r, s1⟩
  have hr : r = none := by
    have := vs_fn_ok env VerifySettings.start
    rw [h] at this
    exact this
  subst hr
  simp [h]
